import Mathlib

/-!
Verification of the fhgr_poisson remote attitude-control link.

The development shallowly embeds the Python sources of the repository:

* `src/client/connection.py` — operator side of the UDP link (dialing role):
  reconnect backoff, send-on-change loop, telemetry receive loop;
* `src/server/connection.py` — vehicle side (listening role): command parsing,
  reply-target tracking, state telemetry send;
* `src/server/control.py` — the three control laws;
* `src/server/mpu6050.py` — telemetry encoding and the attitude-estimator tick.

Wire-level and scheduling-level code works over `ℚ` (the wire carries
comma-separated decimal text, which is exactly a rational; timestamps are
treated as exact numbers).  The quaternion / trigonometric layer used by the
estimator and the control laws works over `ℝ`.
-/

namespace Poisson

/-! ### Shared helpers (both `clamp` definitions in the sources are identical) -/

/-- Python helper `clamp(value, min_value, max_value) = max(min_value, min(max_value, value))`,
as defined in `src/server/connection.py` and `src/server/__init__.py`. -/
def clamp (value lo hi : ℚ) : ℚ := max lo (min hi value)

/-- Python `int(...)` applied to a finite numeric value: truncation toward zero. -/
def pyInt (q : ℚ) : ℤ := if 0 ≤ q then ⌊q⌋ else -⌊-q⌋

/-! ### Wire model

A UDP payload is modelled after `data.decode().split(",")`:

* `none : Datagram` stands for bytes that are not valid UTF-8, where
  `bytes.decode()` raises `UnicodeDecodeError`;
* `some parts` is the decoded text split at commas, each field being
  `some q` when Python `float(field)` parses it to the rational `q`, and
  `none` when `float(field)` raises `ValueError`.
-/

/-- One comma-separated wire field. -/
abbrev Field := Option ℚ

/-- One UDP payload after the socket read. -/
abbrev Datagram := Option (List Field)

/-- The list comprehension `[float(x) for x in parts]`: every field parses,
or the whole comprehension raises `ValueError`. -/
def parseFloats : List Field → Option (List ℚ)
  | [] => some []
  | none :: _ => none
  | some q :: rest => (parseFloats rest).map (q :: ·)

/-! ### Operator-side data model (`src/client/connection.py`) -/

/-- Default gain table of `State.pid_values` in `src/client/connection.py`. -/
def defaultPidValues : (ℚ × ℚ × ℚ) × (ℚ × ℚ × ℚ) × (ℚ × ℚ × ℚ) :=
  ((1/90, 1/90, 1/90), (1, 1, 1), (1, 1, 1))

/-- `THROTTLE_LIMIT` in `src/client/connection.py`. -/
def clientThrottleLimit : ℚ := 1

/-- The `State` dataclass of `src/client/connection.py` (operator-side value:
used both as the command it sends and the display state it stores). -/
structure ClientState where
  quat : ℚ × ℚ × ℚ × ℚ := (0, 0, 0, 1)
  throttle : ℚ := 0
  accel : ℚ × ℚ × ℚ := (0, 0, 0)
  gyro : ℚ × ℚ × ℚ := (0, 0, 0)
  temp_c : ℚ := 0
  selected_pid : ℤ := 0
  pid_values : (ℚ × ℚ × ℚ) × (ℚ × ℚ × ℚ) × (ℚ × ℚ × ℚ) := defaultPidValues
deriving DecidableEq

/-! ### Operator-side reconnect backoff (`Connection._ensure_connected`) -/

/-- The connection fields of `client.connection.Connection.__init__`:
`sock_connected = False`, `last_connect_attempt = 0.0`, `next_connect_time = 0.0`. -/
structure ConnState where
  sockConnected : Bool := false
  lastConnectAttempt : ℚ := 0
  nextConnectTime : ℚ := 0
deriving DecidableEq

/-- `Connection._ensure_connected` of `src/client/connection.py`.  `now` is the
value of `time.time()` and `connectSucceeds` tells whether the
`sock.connect(self.addr)` call would succeed.  Returns the updated state and
whether a socket connect call was attempted. -/
def ensure_connected (st : ConnState) (now : ℚ) (connectSucceeds : Bool) :
    ConnState × Bool :=
  if st.sockConnected then (st, false)
  else if now < st.nextConnectTime ∨ now - st.lastConnectAttempt < 1 then (st, false)
  else if connectSucceeds then
    ({ sockConnected := true, lastConnectAttempt := now, nextConnectTime := now }, true)
  else
    ({ sockConnected := false, lastConnectAttempt := now, nextConnectTime := now + 5 }, true)

/-- The initial connection state of `Connection.__init__`. -/
def connInit : ConnState := {}

/-! ### Operator-side send loop (`Connection._send_loop`, `Connection.set_command`) -/

/-- Environment of one `_send_loop` iteration: the current time and the
outcomes the sockets would produce. -/
structure SendEnv where
  now : ℚ
  connectSucceeds : Bool
  sendSucceeds : Bool

/-- The sender-relevant fields of `client.connection.Connection`. -/
structure SenderState where
  pending : Option ClientState := none
  lastSent : Option ClientState := none
  conn : ConnState := {}
deriving DecidableEq

/-- `Connection.set_command`: stash the latest command for the sender thread. -/
def set_command (st : SenderState) (s : ClientState) : SenderState :=
  { st with pending := some s }

/-- One iteration of the `Connection._send_loop` body (between two sleeps).
Returns the updated state and whether `sock.send` transmitted the pending
state.  Mirrors: the loop does something only when
`pending_state is not None and pending_state != last_sent_state`; it then
ensures the connection and, when connected, sends, recording
`last_sent_state = pending_state` on success and dropping the connection on
an `OSError`. -/
def send_iteration (st : SenderState) (env : SendEnv) : SenderState × Bool :=
  if st.pending ≠ none ∧ st.pending ≠ st.lastSent then
    let conn1 := if st.conn.sockConnected then st.conn
                 else (ensure_connected st.conn env.now env.connectSucceeds).1
    if conn1.sockConnected then
      if env.sendSucceeds then
        ({ st with conn := conn1, lastSent := st.pending }, true)
      else
        ({ st with conn := { conn1 with sockConnected := false } }, false)
    else ({ st with conn := conn1 }, false)
  else (st, false)

/-- Several consecutive `_send_loop` iterations; counts transmissions. -/
def send_many : SenderState → List SendEnv → SenderState × ℕ
  | st, [] => (st, 0)
  | st, env :: rest =>
    let step := send_iteration st env
    let tail := send_many step.1 rest
    (tail.1, (if step.2 then 1 else 0) + tail.2)

/-! ### Actuator output mapper (spec §4.4) -/

/-- Modelled from the spec: the per-surface actuator output mapper with a
`(min, trim, max)` envelope is not present under `src/` — `src/server/test.py`
only declares the envelopes (`LEFT_LIMITS = (-0.9, 0, 0.9)` and so on) without
using them, and `src/server/__init__.py` maps a legacy `-100..100` command
without any trim.  The definition follows spec §4.4 verbatim:
`duty_us = clamp(1500 + clamp(value + trim, min, max)*500, 1000, 2000)`. -/
def map_duty (value trim lo hi : ℚ) : ℚ :=
  clamp (1500 + clamp (value + trim) lo hi * 500) 1000 2000

/-! ### Theorems: C3, C5, C8 -/

/-- C3: for each actuator channel with envelope `(min, trim, max)`, the mapper
computes `duty_us = clamp(1500 + clamp(value + trim, min, max)*500, 1000, 2000)`;
in particular commanded value `0.0` with envelope `(-0.8, 0.03, 0.8)` maps to
`duty_us = 1515`. -/
theorem c3_mapper_envelope :
    (∀ value trim lo hi, map_duty value trim lo hi
        = clamp (1500 + clamp (value + trim) lo hi * 500) 1000 2000)
    ∧ map_duty 0 (3/100) (-(4/5)) (4/5) = 1515 :=
  ⟨fun _ _ _ _ => rfl, by norm_num [map_duty, clamp, min_def, max_def]⟩

/-- C5 counterexample: a connect attempt fails at time `100`; a second attempt
at time `101.5` — more than 1 second later — is still suppressed (no socket
connect call), because every connect failure sets a 5-second backoff
(`next_connect_time = now + 5.0`).  The claim says the second attempt is
permitted once 1 second has elapsed. -/
theorem c5_counterexample :
    (ensure_connected connInit 100 false).2 = true
    ∧ (ensure_connected (ensure_connected connInit 100 false).1 (203/2) true).2 = false
    ∧ (1 : ℚ) ≤ 203/2 - 100 := by
  refine ⟨?_, ?_, by norm_num⟩ <;> norm_num [ensure_connected, connInit]

/-- After an attempted failed connect at time `t`, the stored state is
not connected with `last_connect_attempt = t` and `next_connect_time = t + 5`. -/
theorem ensure_connected_failure_state (st : ConnState) (t : ℚ)
    (h : (ensure_connected st t false).2 = true) :
    (ensure_connected st t false).1
      = { sockConnected := false, lastConnectAttempt := t, nextConnectTime := t + 5 } := by
  unfold ensure_connected at h ⊢
  split_ifs at h ⊢ <;> simp_all

/-- C5 amended: after a failed connect attempt at time `t`, a second attempt
within 1 second is suppressed — indeed any attempt strictly before `t + 5` is
suppressed, and a new connect attempt is permitted exactly once 5 seconds
(not 1 second) have elapsed since the failed attempt. -/
theorem c5_backoff_five_seconds (st : ConnState) (t now : ℚ) (oc : Bool)
    (h : (ensure_connected st t false).2 = true) :
    (ensure_connected (ensure_connected st t false).1 now oc).2 = true ↔ t + 5 ≤ now := by
  rw [ensure_connected_failure_state st t h]
  unfold ensure_connected
  by_cases hw : now < t + 5 ∨ now - t < 1
  · rw [if_neg (by simp), if_pos hw]
    simp only [Bool.false_eq_true, false_iff]
    intro hle
    rcases hw with hw | hw <;> linarith
  · rw [if_neg (by simp), if_neg hw]
    push_neg at hw
    split_ifs <;> simp [hw.1]

/-- Witness for the amended C5 theorem at a concrete run: failure at `t = 100`,
retry at `now = 105`. -/
theorem c5_backoff_five_seconds_witness :
    (ensure_connected (ensure_connected connInit 100 false).1 105 true).2 = true
      ↔ (100 : ℚ) + 5 ≤ 105 :=
  c5_backoff_five_seconds connInit 100 105 true
    (by norm_num [ensure_connected, connInit])

/-- A send-loop iteration with `pending == last_sent` transmits nothing and
leaves the sender state unchanged. -/
theorem send_iteration_unchanged (st : SenderState) (env : SendEnv)
    (h : st.pending = st.lastSent) :
    send_iteration st env = (st, false) := by
  unfold send_iteration
  rw [if_neg]
  intro hc
  exact hc.2 h

/-- C8: once the send loop has transmitted the current pending command
(`pending == last_sent`), any number of further send-loop iterations perform
no transmit call and leave the sender state unchanged; and as soon as
`set_command` installs a value different from the last one sent, the next
iteration (healthy socket, successful send) does transmit. -/
theorem c8_send_only_on_change (st : SenderState) (envs : List SendEnv)
    (s : ClientState) (env : SendEnv) (h : st.pending = st.lastSent) :
    send_many st envs = (st, 0)
    ∧ (st.lastSent ≠ some s → st.conn.sockConnected = true → env.sendSucceeds = true →
        (send_iteration (set_command st s) env).2 = true) := by
  constructor
  · induction envs with
    | nil => rfl
    | cons e rest ih =>
        simp [send_many, send_iteration_unchanged st e h, ih]
  · intro hne hconn hsend
    unfold send_iteration set_command
    rw [if_pos ⟨by simp, by simpa using fun hc => hne hc.symm⟩]
    simp [hconn, hsend]

/-- Witness for C8 at a concrete state: pending and last-sent both hold the
default state, two loop iterations change nothing; changing the throttle via
`set_command` makes the next iteration transmit. -/
theorem c8_send_only_on_change_witness :
    send_many { pending := some {}, lastSent := some {}, conn := { sockConnected := true } }
        [⟨0, true, true⟩, ⟨1/50, true, true⟩]
      = ({ pending := some {}, lastSent := some {}, conn := { sockConnected := true } }, 0)
    ∧ ((send_iteration (set_command
        { pending := some {}, lastSent := some {}, conn := { sockConnected := true } }
        { throttle := 1/2 }) ⟨0, true, true⟩).2 = true) := by
  refine ⟨(c8_send_only_on_change _ _ { throttle := 1/2 } ⟨0, true, true⟩ rfl).1, ?_⟩
  refine (c8_send_only_on_change _ [] { throttle := 1/2 } ⟨0, true, true⟩ rfl).2 ?_ rfl rfl
  intro hc
  simp only [Option.some.injEq, ClientState.mk.injEq] at hc
  norm_num at hc

/-! ### Quaternion layer over ℝ (scipy.spatial.transform.Rotation)

scipy stores a rotation as a unit quaternion in `(x, y, z, w)` order.
Composition of rotations is the Hamilton quaternion product, `Rotation.inv`
on the stored unit quaternion is conjugation, `from_euler("xyz", ...)`
composes the three extrinsic axis rotations (x, then y, then z, in world
frame, so the matrix is `Rz * Ry * Rx`), and `as_euler("xyz", ...)` reads the
angles back from the rotation-matrix entries with atan2 and arcsin.
-/

@[ext]
structure Quat where
  x : ℝ
  y : ℝ
  z : ℝ
  w : ℝ

/-- The identity rotation, scipy `R.identity()`, quaternion `(0, 0, 0, 1)`. -/
def Quat.one : Quat := ⟨0, 0, 0, 1⟩

/-- Hamilton product in `(x, y, z, w)` storage order. -/
def Quat.mul (p q : Quat) : Quat :=
  ⟨p.w * q.x + p.x * q.w + p.y * q.z - p.z * q.y,
   p.w * q.y - p.x * q.z + p.y * q.w + p.z * q.x,
   p.w * q.z + p.x * q.y - p.y * q.x + p.z * q.w,
   p.w * q.w - p.x * q.x - p.y * q.y - p.z * q.z⟩

instance : Mul Quat := ⟨Quat.mul⟩

theorem Quat.mul_def (p q : Quat) : p * q = Quat.mul p q := rfl

/-- Quaternion conjugate. -/
def Quat.conj (q : Quat) : Quat := ⟨-q.x, -q.y, -q.z, q.w⟩

/-- scipy `Rotation.inv`: the stored quaternion is kept normalized, so the
inverse rotation is the conjugate quaternion. -/
def Quat.inv (q : Quat) : Quat := q.conj

/-- Squared norm of the stored quaternion. -/
def Quat.normSq (q : Quat) : ℝ := q.x ^ 2 + q.y ^ 2 + q.z ^ 2 + q.w ^ 2

theorem Quat.mul_one (q : Quat) : q * Quat.one = q := by
  ext <;> simp [Quat.mul_def, Quat.mul, Quat.one]

theorem Quat.one_mul (q : Quat) : Quat.one * q = q := by
  ext <;> simp [Quat.mul_def, Quat.mul, Quat.one]

theorem Quat.conj_mul_self (q : Quat) : q.conj * q = ⟨0, 0, 0, q.normSq⟩ := by
  ext <;> simp [Quat.mul_def, Quat.mul, Quat.conj, Quat.normSq] <;> ring

/-- The C library atan2, as computed by `math.atan2` and inside scipy. -/
noncomputable def atan2 (y x : ℝ) : ℝ :=
  if 0 < x then Real.arctan (y / x)
  else if x < 0 then
    (if 0 ≤ y then Real.arctan (y / x) + Real.pi else Real.arctan (y / x) - Real.pi)
  else
    (if 0 < y then Real.pi / 2 else if y < 0 then -(Real.pi / 2) else 0)

/-- `math.degrees`. -/
noncomputable def degrees (x : ℝ) : ℝ := x * 180 / Real.pi

/-- Degrees to radians, as applied by scipy when `degrees=True`. -/
noncomputable def radians (x : ℝ) : ℝ := x * Real.pi / 180

theorem atan2_zero_one : atan2 0 1 = 0 := by
  norm_num [atan2]

theorem atan2_one_zero : atan2 1 0 = Real.pi / 2 := by
  norm_num [atan2]

theorem degrees_zero : degrees 0 = 0 := by
  simp [degrees]

theorem degrees_pi_div_two : degrees (Real.pi / 2) = 90 := by
  unfold degrees
  field_simp
  ring

/-- Unit quaternion of a rotation by `a` degrees about the x axis. -/
noncomputable def rotX (a : ℝ) : Quat :=
  ⟨Real.sin (radians a / 2), 0, 0, Real.cos (radians a / 2)⟩

/-- Unit quaternion of a rotation by `a` degrees about the y axis. -/
noncomputable def rotY (a : ℝ) : Quat :=
  ⟨0, Real.sin (radians a / 2), 0, Real.cos (radians a / 2)⟩

/-- Unit quaternion of a rotation by `a` degrees about the z axis. -/
noncomputable def rotZ (a : ℝ) : Quat :=
  ⟨0, 0, Real.sin (radians a / 2), Real.cos (radians a / 2)⟩

/-- scipy `R.from_euler` with axes string `"xyz"` and degree inputs:
extrinsic rotations about world x, then y, then z. -/
noncomputable def from_euler_xyz (a b c : ℝ) : Quat := rotZ c * (rotY b * rotX a)

theorem rotX_zero : rotX 0 = Quat.one := by
  simp [rotX, radians, Quat.one]

theorem rotY_zero : rotY 0 = Quat.one := by
  simp [rotY, radians, Quat.one]

theorem rotZ_zero : rotZ 0 = Quat.one := by
  simp [rotZ, radians, Quat.one]

theorem from_euler_xyz_zero : from_euler_xyz 0 0 0 = Quat.one := by
  rw [from_euler_xyz, rotX_zero, rotY_zero, rotZ_zero, Quat.one_mul, Quat.one_mul]

theorem from_euler_xyz_roll (a : ℝ) : from_euler_xyz a 0 0 = rotX a := by
  rw [from_euler_xyz, rotY_zero, rotZ_zero, Quat.one_mul, Quat.one_mul]

/-- scipy `as_euler` with axes string `"xyz"` and degree outputs, on a unit
quaternion, via the rotation-matrix entries. -/
noncomputable def as_euler_xyz (q : Quat) : ℝ × ℝ × ℝ :=
  (degrees (atan2 (2 * (q.y * q.z + q.w * q.x)) (1 - 2 * (q.x ^ 2 + q.y ^ 2))),
   degrees (Real.arcsin (2 * (q.w * q.y - q.x * q.z))),
   degrees (atan2 (2 * (q.x * q.y + q.w * q.z)) (1 - 2 * (q.y ^ 2 + q.z ^ 2))))

theorem as_euler_xyz_one : as_euler_xyz Quat.one = (0, 0, 0) := by
  have h : (2 * ((0:ℝ) * 0 + 1 * 0)) = 0 := by norm_num
  simp only [as_euler_xyz, Quat.one]
  norm_num [atan2_zero_one, degrees_zero, Real.arcsin_zero]

/-- Python float modulo on reals: the result takes the sign of the divisor. -/
noncomputable def pymod (a b : ℝ) : ℝ := a - b * ⌊a / b⌋

/-- `MPU6050._wrap_yaw` of `src/server/mpu6050.py` (the same wrapping is
inlined in `server/connection.Connection._parse_command`). -/
noncomputable def wrap_yaw (yaw : ℝ) : ℝ :=
  if 180 < yaw ∨ yaw < -180 then pymod (yaw + 180) 360 - 180 else yaw

theorem wrap_yaw_zero : wrap_yaw 0 = 0 := by
  norm_num [wrap_yaw]

/-! ### Attitude estimator (`MPU6050._monitor_loop` of `src/server/mpu6050.py`) -/

/-- One inertial sample as consumed by the monitor loop: raw acceleration in
g, gyro rates in deg/s, and the tick duration `dt` (the loop floors it at
1 ms before use). -/
structure Sample where
  ax : ℝ
  ay : ℝ
  az : ℝ
  gx : ℝ
  gy : ℝ
  gz : ℝ
  dt : ℝ

/-- Complementary filter weight `alpha = 0.96` of `_monitor_loop`. -/
def filterAlpha : ℝ := 0.96

/-- The gyro-integration delta rotation of one tick:
`R.from_euler("xyz", [gx * dt, gy * dt, gz * dt], degrees=True)`. -/
noncomputable def gyro_delta (s : Sample) : Quat :=
  from_euler_xyz (s.gx * s.dt) (s.gy * s.dt) (s.gz * s.dt)

/-- One body of the `_monitor_loop` while-loop after a successful sensor
read: right-multiply the integrated gyro delta, compute the accelerometer
roll/pitch reference, blend with weight `alpha`, wrap the yaw, and re-derive
the orientation quaternion from the blended Euler angles. -/
noncomputable def monitor_tick (orientation : Quat) (s : Sample) : Quat :=
  let o1 := orientation * gyro_delta s
  let roll_acc := degrees (atan2 s.ay s.az)
  let pitch_acc := degrees (atan2 (-s.ax) (Real.sqrt (s.ay * s.ay + s.az * s.az)))
  let est := as_euler_xyz o1
  let roll := filterAlpha * est.1 + (1 - filterAlpha) * roll_acc
  let pitch := filterAlpha * est.2.1 + (1 - filterAlpha) * pitch_acc
  let yaw := est.2.2
  from_euler_xyz roll pitch (wrap_yaw yaw)

theorem gyro_delta_zero (s : Sample) (hx : s.gx = 0) (hy : s.gy = 0)
    (hz : s.gz = 0) : gyro_delta s = Quat.one := by
  rw [gyro_delta, hx, hy, hz]
  simpa using from_euler_xyz_zero

/-- With zero gyro rates and the accelerometer reading exactly `(0, 0, 1)`
(gravity straight down in body frame), the identity orientation is a fixed
point of the full tick. -/
theorem monitor_tick_fixed (s : Sample) (hg : s.gx = 0 ∧ s.gy = 0 ∧ s.gz = 0)
    (ha : s.ax = 0 ∧ s.ay = 0 ∧ s.az = 1) :
    monitor_tick Quat.one s = Quat.one := by
  unfold monitor_tick
  rw [gyro_delta_zero s hg.1 hg.2.1 hg.2.2, Quat.mul_one, ha.1, ha.2.1, ha.2.2]
  simp only [as_euler_xyz_one]
  norm_num [atan2_zero_one, degrees_zero, wrap_yaw_zero, from_euler_xyz_zero]

/-- C7 counterexample: starting from the identity orientation, one sample
with all gyro rates zero but accelerometer `(0, 1, 0)` changes the
orientation: the complementary filter pulls roll toward the accelerometer
reference `atan2(1, 0) = 90°`, producing `from_euler(3.6°, 0, 0) ≠ identity`. -/
theorem c7_counterexample :
    monitor_tick Quat.one ⟨0, 1, 0, 0, 0, 0, 1/20⟩ ≠ Quat.one := by
  have heval : monitor_tick Quat.one ⟨0, 1, 0, 0, 0, 0, 1/20⟩
      = from_euler_xyz ((1 - filterAlpha) * 90) 0 0 := by
    unfold monitor_tick
    rw [gyro_delta_zero _ rfl rfl rfl, Quat.mul_one]
    simp only [as_euler_xyz_one]
    norm_num [atan2_zero_one, atan2_one_zero, degrees_zero, degrees_pi_div_two,
      wrap_yaw_zero]
  rw [heval, from_euler_xyz_roll]
  intro hcontra
  have hx : Real.sin (radians ((1 - filterAlpha) * 90) / 2) = 0 := by
    have := congrArg Quat.x hcontra
    simpa [rotX, Quat.one] using this
  have harg : radians ((1 - filterAlpha) * 90) / 2 = Real.pi / 100 := by
    unfold radians filterAlpha
    ring
  rw [harg] at hx
  have hpos : 0 < Real.sin (Real.pi / 100) := by
    apply Real.sin_pos_of_pos_of_lt_pi
    · positivity
    · have hpi : 0 < Real.pi := Real.pi_pos
      linarith
  linarith [hx, hpos]

/-- A zero-rate stream leaves any orientation unchanged when only the
gyro-integration step of the tick is applied. -/
theorem foldl_gyro_delta_zero : ∀ (samples : List Sample) (o : Quat),
    (∀ s ∈ samples, s.gx = 0 ∧ s.gy = 0 ∧ s.gz = 0) →
    samples.foldl (fun acc s => acc * gyro_delta s) o = o := by
  intro samples
  induction samples with
  | nil => intro o _; rfl
  | cons s rest ih =>
      intro o hg
      have hs := hg s (List.mem_cons_self s rest)
      have hrest : ∀ t ∈ rest, t.gx = 0 ∧ t.gy = 0 ∧ t.gz = 0 :=
        fun t ht => hg t (List.mem_cons_of_mem s ht)
      have hstep : o * gyro_delta s = o := by
        rw [gyro_delta_zero s hs.1 hs.2.1 hs.2.2, Quat.mul_one]
      calc (s :: rest).foldl (fun acc u => acc * gyro_delta u) o
          = rest.foldl (fun acc u => acc * gyro_delta u) (o * gyro_delta s) := rfl
        _ = o := by rw [hstep]; exact ih o hrest

/-- A zero-rate stream with accelerometer pinned at `(0, 0, 1)` keeps the
identity orientation through the full tick. -/
theorem foldl_monitor_tick_fixed : ∀ (samples : List Sample),
    (∀ s ∈ samples, s.gx = 0 ∧ s.gy = 0 ∧ s.gz = 0) →
    (∀ s ∈ samples, s.ax = 0 ∧ s.ay = 0 ∧ s.az = 1) →
    samples.foldl monitor_tick Quat.one = Quat.one := by
  intro samples
  induction samples with
  | nil => intro _ _; rfl
  | cons s rest ih =>
      intro hg ha
      have hs := hg s (List.mem_cons_self s rest)
      have has := ha s (List.mem_cons_self s rest)
      have hrest : ∀ t ∈ rest, t.gx = 0 ∧ t.gy = 0 ∧ t.gz = 0 :=
        fun t ht => hg t (List.mem_cons_of_mem s ht)
      have harest : ∀ t ∈ rest, t.ax = 0 ∧ t.ay = 0 ∧ t.az = 1 :=
        fun t ht => ha t (List.mem_cons_of_mem s ht)
      calc (s :: rest).foldl monitor_tick Quat.one
          = rest.foldl monitor_tick (monitor_tick Quat.one s) := rfl
        _ = Quat.one := by rw [monitor_tick_fixed s hs has]; exact ih hrest harest

/-- C7 amended: for every initial orientation, a zero-rate gyro stream makes
every integration delta the identity, so the gyro-integration step alone
(`orientation = orientation * delta`) leaves the orientation unchanged for
the whole sequence; the full tick additionally applies the accelerometer
blend, which can move the orientation (see the counterexample) — the identity
orientation is kept by a zero-rate stream whose accelerometer reads exactly
`(0, 0, 1)`. -/
theorem c7_zero_gyro_integration (o : Quat) (samples : List Sample)
    (hg : ∀ s ∈ samples, s.gx = 0 ∧ s.gy = 0 ∧ s.gz = 0) :
    samples.foldl (fun acc s => acc * gyro_delta s) o = o
    ∧ ((∀ s ∈ samples, s.ax = 0 ∧ s.ay = 0 ∧ s.az = 1) →
        samples.foldl monitor_tick Quat.one = Quat.one) :=
  ⟨foldl_gyro_delta_zero samples o hg,
   fun ha => foldl_monitor_tick_fixed samples hg ha⟩

/-- Witness for the amended C7 theorem on a concrete two-sample zero-rate
stream with accelerometer `(0, 0, 1)`. -/
theorem c7_zero_gyro_integration_witness :
    ([⟨0, 0, 1, 0, 0, 0, 1/20⟩, ⟨0, 0, 1, 0, 0, 0, 1/10⟩] : List Sample).foldl
        (fun acc s => acc * gyro_delta s) (rotX 45) = rotX 45
    ∧ (([⟨0, 0, 1, 0, 0, 0, 1/20⟩, ⟨0, 0, 1, 0, 0, 0, 1/10⟩] : List Sample).foldl
        monitor_tick Quat.one = Quat.one) := by
  have h := c7_zero_gyro_integration (rotX 45)
    [⟨0, 0, 1, 0, 0, 0, 1/20⟩, ⟨0, 0, 1, 0, 0, 0, 1/10⟩]
    (by
      intro s hs
      simp only [List.mem_cons, List.not_mem_nil, or_false] at hs
      rcases hs with rfl | rfl <;> norm_num)
  refine ⟨h.1, h.2 ?_⟩
  intro s hs
  simp only [List.mem_cons, List.not_mem_nil, or_false] at hs
  rcases hs with rfl | rfl <;> norm_num

/-! ### Vehicle-side data model (`src/server/mpu6050.py`, `src/server/connection.py`) -/

/-- The `ImuState` dataclass of `src/server/mpu6050.py`.  The stored `quat`
is a scipy Rotation, invariantly a unit quaternion. -/
structure ImuState where
  quat : Quat
  ax : ℝ
  ay : ℝ
  az : ℝ
  gx : ℝ
  gy : ℝ
  gz : ℝ
  temp_c : ℝ
  timestamp : ℝ
  dt : ℝ

/-- The `Command` dataclass of `src/server/connection.py`. -/
structure Command where
  roll : ℝ
  pitch : ℝ
  yaw : ℝ
  quat : Quat
  throttle : ℝ
  pid_selection : ℤ
  pid_data : ℝ × ℝ × ℝ

/-! ### Control laws (`src/server/control.py`) -/

/-- The `Output` dataclass of `src/server/control.py`.  Its docstring states
the invariant: values range from -1.0 to 1.0. -/
structure Output where
  left : ℝ
  middle : ℝ
  right : ℝ
  throttle : ℝ

/-- Law 0 (`no_pid`): open-loop mix of the stored target Euler angles, with
the right surface negated for its mirrored mount. -/
def no_pid (state : ImuState) (command : Command) : Output :=
  let left := command.pitch - command.roll
  let right := command.pitch + command.roll
  let middle := -command.yaw
  Output.mk (left * command.pid_data.1) (middle * command.pid_data.2.1)
    (-right * command.pid_data.2.2) command.throttle

/-- Law 1 (`fabrizio_pid`): quaternion-error proportional control,
`error = state.quat.inv() * command.quat`, gains applied to the Euler
components of the error, right surface negated. -/
noncomputable def fabrizio_pid (state : ImuState) (command : Command) : Output :=
  let error := state.quat.inv * command.quat
  let euler := as_euler_xyz error
  let pp := command.pid_data.1
  let pr := command.pid_data.2.1
  let py := command.pid_data.2.2
  Output.mk (euler.2.1 * pp + euler.1 * pr) (euler.2.2 * py)
    (-(euler.2.1 * pp - euler.1 * pr)) command.throttle

/-- Law 2 (`york_pid`): integrates forward acceleration into the file-scope
`x`, `vx` globals (modelled as an explicit integrator pair) for logging only,
and returns the all-zero output. -/
def york_pid (integrator : ℝ × ℝ) (state : ImuState) (command : Command) :
    (ℝ × ℝ) × Output :=
  let vx := integrator.2 + state.ax * state.dt
  let x := integrator.1 + vx * state.dt
  ((x, vx), Output.mk 0 0 0 0)

/-! ### Vehicle-side connection (`src/server/connection.py`) -/

/-- Failure modes of `Connection._parse_command`, tagged by the Python
exception each raises. -/
inductive ServerErr where
  | decodeError
  | badFloat
  | badCount
  | zeroNormQuat
deriving DecidableEq

/-- Whether the exception is a `ValueError` — the class the vehicle receive
loop catches.  `UnicodeDecodeError` derives from `UnicodeError`, which
derives from `ValueError`; the float conversion and tuple unpacking raise
`ValueError`; scipy raises `ValueError` for a zero-norm quaternion. -/
def ServerErr.isValueError : ServerErr → Bool
  | .decodeError => true
  | .badFloat => true
  | .badCount => true
  | .zeroNormQuat => true

/-- Normalization performed by scipy `Rotation.from_quat`. -/
noncomputable def from_quat (qx qy qz qw : ℝ) : Quat :=
  let n := Real.sqrt (qx ^ 2 + qy ^ 2 + qz ^ 2 + qw ^ 2)
  ⟨qx / n, qy / n, qz / n, qw / n⟩

/-- The value-level part of `Connection._parse_command`: unpack exactly
`qx, qy, qz, qw, throttle, pid_selection = values[0:6]` and
`p, i, d = values[6:]` (so exactly 9 numeric fields), build the rotation,
extract and wrap the Euler angles, clamp the throttle to
`THROTTLE_LIMIT = 100.0`. -/
noncomputable def parse_fields (values : List ℚ) : Except ServerErr Command :=
  match values with
  | [qx, qy, qz, qw, throttle, pid_sel, p, iGain, dGain] =>
    if qx ^ 2 + qy ^ 2 + qz ^ 2 + qw ^ 2 = 0 then .error .zeroNormQuat
    else
      let rot := from_quat (qx : ℝ) (qy : ℝ) (qz : ℝ) (qw : ℝ)
      let euler := as_euler_xyz rot
      .ok { roll := euler.1, pitch := euler.2.1, yaw := wrap_yaw euler.2.2,
            quat := rot,
            throttle := ((clamp throttle (-100) 100 : ℚ) : ℝ),
            pid_selection := pyInt pid_sel,
            pid_data := ((p : ℝ), (iGain : ℝ), (dGain : ℝ)) }
  | _ => .error .badCount

/-- `Connection._parse_command` of `src/server/connection.py` applied to one
datagram: decode the bytes, parse every comma-separated field as a float,
then `parse_fields`. -/
noncomputable def parse_command (d : Datagram) : Except ServerErr Command :=
  match d with
  | none => .error .decodeError
  | some parts =>
    match parseFloats parts with
    | none => .error .badFloat
    | some values => parse_fields values

/-- The mutable endpoint fields of the vehicle-side `Connection`:
`_latest_command` and `sender_socket` (the reply target). -/
structure ServerConn where
  latestCommand : Option Command := none
  senderSocket : Option ℕ := none

/-- Result of one vehicle-side receive iteration. -/
inductive ServerRecv where
  | stepped (st : ServerConn) (callbackInvoked : Bool)
  | crashed

/-- One iteration of the vehicle-side `Connection._receive_loop` past the
socket read: parse the datagram; on success store the command, record the
sender address as the reply target and invoke the callback; a `ValueError`
is dropped (logged); any other exception would escape the loop. -/
noncomputable def receive_step (st : ServerConn) (d : Datagram) (addr : ℕ) :
    ServerRecv :=
  match parse_command d with
  | .error e => if e.isValueError then .stepped st false else .crashed
  | .ok command =>
      .stepped { latestCommand := some command, senderSocket := some addr } true

/-- Python float formatting `f"{x:.nf}"`, modelled as rounding the value to
`n` decimal places (the numeric value the receiving side parses back). -/
noncomputable def roundTo (n : ℕ) (x : ℝ) : ℝ := (round (x * 10 ^ n) : ℤ) / 10 ^ n

/-- `ImuState.as_msg` of `src/server/mpu6050.py`: the 12 numeric fields of a
State telemetry datagram — quaternion components at 6 decimal places, accel
and gyro at 4, temperature and throttle echo at 2. -/
noncomputable def ImuState.as_msg (s : ImuState) (throttle : ℝ) : List ℝ :=
  [roundTo 6 s.quat.x, roundTo 6 s.quat.y, roundTo 6 s.quat.z, roundTo 6 s.quat.w,
   roundTo 4 s.ax, roundTo 4 s.ay, roundTo 4 s.az,
   roundTo 4 s.gx, roundTo 4 s.gy, roundTo 4 s.gz,
   roundTo 2 s.temp_c, roundTo 2 throttle]

/-- The throttle echoed by `Connection.send_state`: the throttle of the
latest received command, or `0.0` when none has been received. -/
def echoThrottle (st : ServerConn) : ℝ :=
  match st.latestCommand with
  | some c => c.throttle
  | none => 0

/-- `Connection.send_state` of `src/server/connection.py`: read the reply
target and the echo throttle, send nothing when no sender has been recorded
or the state is `None`, otherwise send `state.as_msg(throttle)` to the
recorded target. -/
noncomputable def send_state (st : ServerConn) (imu : Option ImuState) :
    Option (ℕ × List ℝ) :=
  let throttle := echoThrottle st
  match st.senderSocket, imu with
  | some target, some s => some (target, s.as_msg throttle)
  | _, _ => none

/-! ### Concrete values used by witnesses -/

/-- A neutral vehicle state: identity attitude, 1 g straight down. -/
noncomputable def imuNeutral : ImuState :=
  { quat := Quat.one, ax := 0, ay := 0, az := 1, gx := 0, gy := 0, gz := 0,
    temp_c := 25, timestamp := 0, dt := 1/20 }

theorem from_quat_unit : from_quat ((0:ℚ):ℝ) ((0:ℚ):ℝ) ((0:ℚ):ℝ) ((1:ℚ):ℝ)
    = Quat.one := by
  norm_num [from_quat, Quat.one]

/-- Evaluation of `_parse_command` on the well-formed 9-field datagram
`0,0,0,1,t,0,1,1,1` with an in-range throttle. -/
theorem parse_command_nine (t : ℚ) (h1 : -100 ≤ t) (h2 : t ≤ 100) :
    parse_command (some [some 0, some 0, some 0, some 1, some t, some 0,
        some 1, some 1, some 1])
      = .ok { roll := 0, pitch := 0, yaw := 0, quat := Quat.one,
              throttle := ((t : ℚ) : ℝ), pid_selection := 0,
              pid_data := (((1:ℚ):ℝ), ((1:ℚ):ℝ), ((1:ℚ):ℝ)) } := by
  have hstep : parse_command (some [some 0, some 0, some 0, some 1, some t, some 0,
      some 1, some 1, some 1]) = parse_fields [0, 0, 0, 1, t, 0, 1, 1, 1] := rfl
  rw [hstep]
  simp only [parse_fields]
  rw [if_neg (by norm_num)]
  have hclamp : clamp t (-100) 100 = t := by
    rw [clamp, min_eq_right h2, max_eq_right h1]
  simp only [from_quat_unit, as_euler_xyz_one, wrap_yaw_zero, hclamp]
  norm_num [pyInt]

/-- The command parsed from the datagram `0,0,0,1,50,0,1,1,1`: identity
target attitude, throttle 50 (within the server `THROTTLE_LIMIT = 100`),
law 0, unit gains. -/
noncomputable def command50 : Command :=
  { roll := 0, pitch := 0, yaw := 0, quat := Quat.one,
    throttle := ((50 : ℚ) : ℝ), pid_selection := 0,
    pid_data := (((1:ℚ):ℝ), ((1:ℚ):ℝ), ((1:ℚ):ℝ)) }

/-! ### Theorems: C2, C6, C9, C10 -/

/-- C2 fails in the code: the datagram `0,0,0,1,50,0,1,1,1` parses to a
legitimate command with throttle 50, and both `no_pid` and `fabrizio_pid`
pass that throttle through unclamped, so the returned `Output` has a
component outside `[-1, 1]` — contradicting the `Output` docstring and the
claim that every component lies in `[-1, 1]`.  (Only `york_pid` always
returns a bounded — all-zero — output.) -/
theorem c2_output_exceeds_bounds :
    parse_command (some [some 0, some 0, some 0, some 1, some 50, some 0,
        some 1, some 1, some 1]) = .ok command50
    ∧ (no_pid imuNeutral command50).throttle = ((50 : ℚ) : ℝ)
    ∧ (fabrizio_pid imuNeutral command50).throttle = ((50 : ℚ) : ℝ)
    ∧ (1 : ℝ) < ((50 : ℚ) : ℝ)
    ∧ (∀ integrator state command, ((york_pid integrator state command).2.left = 0
        ∧ (york_pid integrator state command).2.middle = 0
        ∧ (york_pid integrator state command).2.right = 0
        ∧ (york_pid integrator state command).2.throttle = 0)) := by
  refine ⟨parse_command_nine 50 (by norm_num) (by norm_num), rfl, rfl,
    by norm_num, fun _ _ _ => ⟨rfl, rfl, rfl, rfl⟩⟩

/-- C6: when the measured quaternion equals the target quaternion (scipy
keeps both normalized, hence the unit-norm hypothesis), the error rotation
is the identity, its Euler components are all zero, and `fabrizio_pid`
returns zero left, middle and right regardless of the gains and throttle. -/
theorem c6_fabrizio_identity_error (state : ImuState) (command : Command)
    (heq : state.quat = command.quat) (hunit : state.quat.normSq = 1) :
    (fabrizio_pid state command).left = 0
    ∧ (fabrizio_pid state command).middle = 0
    ∧ (fabrizio_pid state command).right = 0 := by
  have herr : state.quat.inv * command.quat = Quat.one := by
    rw [Quat.inv, ← heq, Quat.conj_mul_self, hunit]
    rfl
  simp [fabrizio_pid, herr, as_euler_xyz_one]

/-- Witness for C6 at concrete inputs: both attitudes are the identity,
gains `(2, 3, 4)`, throttle `3/4`. -/
theorem c6_fabrizio_identity_error_witness :
    (fabrizio_pid imuNeutral
        { roll := 0, pitch := 0, yaw := 0, quat := Quat.one, throttle := 3/4,
          pid_selection := 1, pid_data := (2, 3, 4) }).left = 0
    ∧ (fabrizio_pid imuNeutral
        { roll := 0, pitch := 0, yaw := 0, quat := Quat.one, throttle := 3/4,
          pid_selection := 1, pid_data := (2, 3, 4) }).middle = 0
    ∧ (fabrizio_pid imuNeutral
        { roll := 0, pitch := 0, yaw := 0, quat := Quat.one, throttle := 3/4,
          pid_selection := 1, pid_data := (2, 3, 4) }).right = 0 :=
  c6_fabrizio_identity_error imuNeutral
    { roll := 0, pitch := 0, yaw := 0, quat := Quat.one, throttle := 3/4,
      pid_selection := 1, pid_data := (2, 3, 4) }
    rfl (by norm_num [imuNeutral, Quat.normSq, Quat.one])

/-- C9: on the vehicle side, a datagram whose parse raises a `ValueError`
leaves the endpoint unchanged — stored command and reply target keep their
previous values, the callback is not invoked — while a well-formed datagram
stores the parsed command, replaces the reply target with the sender address
and invokes the callback. -/
theorem c9_receive_step_state (st : ServerConn) (d : Datagram) (addr : ℕ) :
    (∀ e, parse_command d = .error e → receive_step st d addr = .stepped st false)
    ∧ (∀ c, parse_command d = .ok c → receive_step st d addr
        = .stepped { latestCommand := some c, senderSocket := some addr } true) := by
  constructor
  · intro e he
    unfold receive_step
    rw [he]
    cases e <;> rfl
  · intro c hc
    unfold receive_step
    rw [hc]

/-- Witness for C9: a malformed datagram (second field non-numeric) leaves a
concrete endpoint untouched without invoking the callback; the well-formed
datagram `0,0,0,1,1/4,0,1,1,1` from sender address 9 replaces the reply
target and invokes the callback. -/
theorem c9_receive_step_state_witness :
    receive_step { latestCommand := none, senderSocket := some 3 }
        (some [some 1, none]) 9
      = .stepped { latestCommand := none, senderSocket := some 3 } false
    ∧ receive_step { latestCommand := none, senderSocket := some 3 }
        (some [some 0, some 0, some 0, some 1, some (1/4), some 0,
          some 1, some 1, some 1]) 9
      = .stepped
          { latestCommand := some
              { roll := 0, pitch := 0, yaw := 0, quat := Quat.one,
                throttle := (((1:ℚ)/4 : ℚ) : ℝ), pid_selection := 0,
                pid_data := (((1:ℚ):ℝ), ((1:ℚ):ℝ), ((1:ℚ):ℝ)) },
            senderSocket := some 9 } true :=
  ⟨(c9_receive_step_state _ _ _).1 .badFloat rfl,
   (c9_receive_step_state _ _ _).2 _ (parse_command_nine (1/4) (by norm_num) (by norm_num))⟩

/-- C10: `send_state` sends nothing when no sender address has been recorded
or the state is `None`; otherwise it sends `state.as_msg(throttle)` to the
recorded target, where the echoed throttle — field index 11 of the payload —
is the latest command throttle (or `0.0` when none) rounded to the 2-decimal
wire format, which is exact whenever that throttle is a 2-decimal value (as
every throttle encoded by the operator at `"%.2f"` is). -/
theorem c10_send_state_echo (st : ServerConn) (imu : Option ImuState) :
    ((st.senderSocket = none ∨ imu = none) → send_state st imu = none)
    ∧ (∀ a s, st.senderSocket = some a → imu = some s →
        send_state st imu = some (a, s.as_msg (echoThrottle st)))
    ∧ (∀ (s : ImuState) (t : ℝ), (s.as_msg t).get? 11 = some (roundTo 2 t))
    ∧ (∀ k : ℤ, roundTo 2 ((k : ℝ) / 100) = (k : ℝ) / 100) := by
  refine ⟨?_, ?_, ?_, ?_⟩
  · intro h
    rcases h with h | h
    · cases imu <;> simp [send_state, h]
    · cases hs : st.senderSocket <;> simp [send_state, h]
  · intro a s ha hs
    simp [send_state, ha, hs]
  · intro s t
    rfl
  · intro k
    unfold roundTo
    have harg : ((k : ℝ) / 100) * 10 ^ 2 = (k : ℝ) := by
      field_simp
      norm_num
    rw [harg, round_intCast]
    norm_num

/-- Witness for C10: no sender recorded means nothing is sent; with sender 7
and the latest command being `command50`, the neutral state is sent to 7
with throttle echo taken from that command. -/
theorem c10_send_state_echo_witness :
    send_state { latestCommand := some command50, senderSocket := none }
        (some imuNeutral) = none
    ∧ send_state { latestCommand := some command50, senderSocket := some 7 }
        (some imuNeutral)
      = some (7, imuNeutral.as_msg
          (echoThrottle { latestCommand := some command50, senderSocket := some 7 })) :=
  ⟨(c10_send_state_echo _ _).1 (Or.inl rfl),
   (c10_send_state_echo _ _).2.1 7 imuNeutral rfl rfl⟩

/-! ### Operator-side receive loop (`client.connection.Connection._receive_loop`) -/

/-- Result of one operator-side receive iteration. -/
inductive ClientRecv where
  | stored (s : ClientState)
  | dropped
  | crashed
deriving DecidableEq

/-- Whether the iteration let an exception escape the receive loop. -/
def ClientRecv.isCrash : ClientRecv → Bool
  | .crashed => true
  | _ => false

/-- One iteration of the operator-side `_receive_loop` past the socket read:
`data.decode()` runs outside any try block, so a non-UTF-8 payload raises
`UnicodeDecodeError` out of the loop; otherwise the text is split at commas,
the first 13 fields are parsed as floats (a `ValueError` drops the
datagram), any datagram with fewer than 13 numeric fields is dropped
(`if len(floats) < 13: continue`), and otherwise the decoded `State` is
stored with the throttle clamped to the operator `THROTTLE_LIMIT = 1.0` and
the selected law id taken from field 12. -/
def receive_iteration (prev : ClientState) (d : Datagram) : ClientRecv :=
  match d with
  | none => .crashed
  | some parts =>
    match parseFloats (parts.take 13) with
    | none => .dropped
    | some floats =>
      if floats.length < 13 then .dropped
      else
        match floats with
        | qx :: qy :: qz :: qw :: ax :: ay :: az :: gx :: gy :: gz ::
            temp_c :: throttle_val :: selF :: _ =>
          .stored { quat := (qx, qy, qz, qw),
                    throttle := max (-clientThrottleLimit)
                      (min clientThrottleLimit throttle_val),
                    accel := (ax, ay, az), gyro := (gx, gy, gz), temp_c := temp_c,
                    selected_pid := pyInt selF, pid_values := defaultPidValues }
        | _ => .dropped

theorem parseFloats_map_some : ∀ l : List ℚ, parseFloats (l.map some) = some l := by
  intro l
  induction l with
  | nil => rfl
  | cons q rest ih => simp [parseFloats, ih]

/-! ### Theorems: C1, C4 -/

/-- C1 fails in the code — the two ends of the repository disagree:
`ImuState.as_msg` always emits exactly 12 fields, while the operator receive
loop drops every datagram with fewer than 13 numeric fields, so the
canonical 12-field State telemetry is never accepted or stored. -/
theorem c1_twelve_field_state_dropped :
    (∀ (s : ImuState) (t : ℝ), (s.as_msg t).length = 12)
    ∧ (∀ (prev : ClientState) (qs : List ℚ), qs.length = 12 →
        receive_iteration prev (some (qs.map some)) = .dropped) := by
  constructor
  · intro s t
    rfl
  · intro prev qs h
    have htake : (qs.map some).take 13 = qs.map some :=
      List.take_of_length_le (by simp [h])
    simp only [receive_iteration, htake, parseFloats_map_some]
    rw [if_pos (by omega)]

/-- Witness for C1: the neutral telemetry message has 12 fields, and a
concrete 12-field all-numeric datagram is dropped by the operator side. -/
theorem c1_twelve_field_state_dropped_witness :
    (ImuState.as_msg imuNeutral 0).length = 12
    ∧ receive_iteration {} (some ((List.replicate 12 (0:ℚ)).map some)) = .dropped :=
  ⟨c1_twelve_field_state_dropped.1 imuNeutral 0,
   c1_twelve_field_state_dropped.2 {} (List.replicate 12 0) (by simp)⟩

/-- C4 counterexample: a payload of non-UTF-8 bytes makes `data.decode()`
raise `UnicodeDecodeError` outside the try block of the operator receive
loop, so the exception escapes the iteration instead of the datagram being
dropped. -/
theorem c4_counterexample : (receive_iteration {} none).isCrash = true := rfl

/-! ### Error-path refinement of the wire model (for the crash analysis)

The value-level model above carries finite rationals only.  Python `float()`
also parses `"inf"`, `"-inf"` and `"nan"`, and silently overflows literals
such as `"1e400"` to an infinity — it never raises `OverflowError` itself.
`int()` applied to such a value raises `OverflowError` on an infinity and
`ValueError` on nan, and both receive loops catch only `ValueError`.  The
refinement below carries those non-finite parsed values so the escaping
exception paths can be characterized exactly.
-/

/-- A successfully parsed Python float: a finite value, a signed infinity
(from `float("inf")` or an overflowing literal such as `"1e400"`), or nan. -/
inductive PyFloat where
  | finite (q : ℚ)
  | inf (neg : Bool)
  | nan
deriving DecidableEq

/-- Whether the value is one of the two infinities. -/
def PyFloat.isInf : PyFloat → Bool
  | .inf _ => true
  | _ => false

/-- Exception classes relevant to the receive loops. -/
inductive PyErr where
  | unicodeDecodeError
  | valueError
  | overflowError
deriving DecidableEq

/-- Whether an `except ValueError` clause catches the exception:
`UnicodeDecodeError` derives from `UnicodeError`, which derives from
`ValueError`; `OverflowError` does not derive from `ValueError`. -/
def PyErr.isValueErrorClass : PyErr → Bool
  | .unicodeDecodeError => true
  | .valueError => true
  | .overflowError => false

/-- The exception Python `int()` raises on a parsed float, if any: none on a
finite value (the conversion truncates toward zero, compare `pyInt`),
`OverflowError` on an infinity, `ValueError` on nan. -/
def intErr : PyFloat → Option PyErr
  | .finite _ => none
  | .inf _ => some .overflowError
  | .nan => some .valueError

/-- Classification of one receive-loop iteration in the error-path model. -/
inductive RecvClass where
  | stored
  | dropped
  | crashed (e : PyErr)
deriving DecidableEq

/-- Whether an exception escaped the loop. -/
def RecvClass.isCrash : RecvClass → Bool
  | .crashed _ => true
  | _ => false

/-- The float list comprehension over the refined fields. -/
def parsePyFloats : List (Option PyFloat) → Option (List PyFloat)
  | [] => some []
  | none :: _ => none
  | some v :: rest => (parsePyFloats rest).map (v :: ·)

/-- The fields of a 9-element command payload that decide the error path:
the four quaternion components `values[0:4]` and the law selector
`values[5]` (the only field `_parse_command` passes to `int()`). -/
def nineFields : List PyFloat →
    Option (PyFloat × PyFloat × PyFloat × PyFloat × PyFloat)
  | [qx, qy, qz, qw, _, sel, _, _, _] => some (qx, qy, qz, qw, sel)
  | _ => none

/-- scipy `Rotation.from_quat` raises `ValueError` exactly on an all-finite
zero-norm quaternion; with an infinite or nan component the zero comparison
is false and scipy proceeds (producing non-finite values) without raising. -/
def zeroNormQuatF : PyFloat → PyFloat → PyFloat → PyFloat → Bool
  | .finite a, .finite b, .finite c, .finite d =>
      if a ^ 2 + b ^ 2 + c ^ 2 + d ^ 2 = 0 then true else false
  | _, _, _, _ => false

/-- Error-path refinement of the vehicle `_parse_command` past the float
parsing: which exception, if any, the parsed field values raise.
`ValueError` covers a wrong field count, an all-finite zero-norm quaternion
and a nan selector (`int(nan)` raises `ValueError`); an infinite selector
makes `int()` raise `OverflowError`.  The clamp, the Euler extraction and
the remaining fields raise nothing even on non-finite values. -/
def parse_values_err (values : List PyFloat) : Option PyErr :=
  Option.elim' (some .valueError)
    (fun q => cond (zeroNormQuatF q.1 q.2.1 q.2.2.1 q.2.2.2.1)
      (some .valueError) (intErr q.2.2.2.2))
    (nineFields values)

/-- The whole `_parse_command` error path: decode, float-parse every field,
then the value-level classification above. -/
def parse_command_err (d : Option (List (Option PyFloat))) : Option PyErr :=
  Option.elim' (some .unicodeDecodeError)
    (fun parts => Option.elim' (some .valueError) parse_values_err
      (parsePyFloats parts)) d

/-- One vehicle receive iteration in the error-path model: the loop catches
`except ValueError` only and drops the datagram; any other exception escapes. -/
def receive_step_class (d : Option (List (Option PyFloat))) : RecvClass :=
  Option.elim' .stored
    (fun e => cond e.isValueErrorClass .dropped (.crashed e))
    (parse_command_err d)

/-- One operator receive iteration in the error-path model.  `data.decode()`
runs outside every try block, so a non-UTF-8 payload escapes directly; the
float parsing of the first 13 fields is guarded by `except ValueError`; the
selector conversion `int(float(parts[12]))` sits in an inner
`except ValueError` whose handler falls back to the previous selector and
still stores the state — so a nan selector is stored, while an infinite
selector raises `OverflowError` past both handlers. -/
def receive_iteration_class (d : Option (List (Option PyFloat))) : RecvClass :=
  Option.elim' (.crashed .unicodeDecodeError)
    (fun parts =>
      Option.elim' .dropped
        (fun floats =>
          if floats.length < 13 then .dropped
          else
            Option.elim' .dropped
              (fun sel =>
                Option.elim' .stored
                  (fun e => cond e.isValueErrorClass .stored (.crashed e))
                  (intErr sel))
              (floats.get? 12))
        (parsePyFloats (parts.take 13))) d

/-- Whether a UTF-8 operator payload carries 13 parsed numeric fields whose
selector (field index 12) is an infinity — the only operator-side crash
beyond the decode. -/
def clientSelInf (parts : List (Option PyFloat)) : Bool :=
  Option.elim' false
    (fun floats =>
      if floats.length < 13 then false
      else Option.elim' false PyFloat.isInf (floats.get? 12))
    (parsePyFloats (parts.take 13))

/-- The vehicle-side crash condition at the field-value level: exactly 9
numeric fields, a quaternion that passes the zero-norm check, and an
infinite selector. -/
def serverValuesSelInf (values : List PyFloat) : Bool :=
  Option.elim' false
    (fun q => cond (zeroNormQuatF q.1 q.2.1 q.2.2.1 q.2.2.2.1) false
      (q.2.2.2.2.isInf))
    (nineFields values)

/-- Whether a vehicle datagram reaches the selector conversion with an
infinite value — the only vehicle-side crash. -/
def serverSelInf (d : Option (List (Option PyFloat))) : Bool :=
  Option.elim' false
    (fun parts => Option.elim' false serverValuesSelInf (parsePyFloats parts)) d

/-- The vehicle classification crashes exactly on the value-level crash
condition. -/
theorem parse_values_crash (values : List PyFloat) :
    (Option.elim' RecvClass.stored
      (fun e => cond e.isValueErrorClass RecvClass.dropped (.crashed e))
      (parse_values_err values)).isCrash = serverValuesSelInf values := by
  unfold parse_values_err serverValuesSelInf
  cases hn : nineFields values with
  | none => rfl
  | some q =>
      obtain ⟨qx, qy, qz, qw, sel⟩ := q
      simp only [Option.elim'_some]
      by_cases hz : zeroNormQuatF qx qy qz qw
      · simp [hz, RecvClass.isCrash, PyErr.isValueErrorClass]
      · have hz2 : zeroNormQuatF qx qy qz qw = false := by simpa using hz
        simp only [hz2, cond_false]
        cases sel <;> rfl

/-- C4 amended: each receive loop stores or drops every inbound payload,
with exactly two escaping-exception families — on the operator side a
non-UTF-8 payload raises `UnicodeDecodeError` out of the loop (the decode
runs outside the try block), and on both sides a payload whose law-selector
field parses to an infinite float (such as `inf` or `1e400`) makes `int()`
raise `OverflowError` out of the loop, because only `ValueError` is caught.
All other malformed payloads — non-numeric fields, wrong field counts,
zero-norm quaternions, nan selectors — are dropped (a nan selector on the
operator side is even stored, through the inner fallback handler).  The
theorem characterizes the crashes exactly and exhibits both `OverflowError`
payloads concretely. -/
theorem c4_crash_characterization (parts : List (Option PyFloat))
    (d : Option (List (Option PyFloat))) :
    (receive_iteration_class (some parts)).isCrash = clientSelInf parts
    ∧ (receive_step_class d).isCrash = serverSelInf d
    ∧ receive_iteration_class none = .crashed .unicodeDecodeError
    ∧ receive_iteration_class
        (some (List.replicate 12 (some (PyFloat.finite 0)) ++ [some (PyFloat.inf false)]))
        = .crashed .overflowError
    ∧ receive_step_class
        (some [some (.finite 0), some (.finite 0), some (.finite 0), some (.finite 1),
          some (.finite 0), some (.inf false), some (.finite 1), some (.finite 1),
          some (.finite 1)])
        = .crashed .overflowError := by
  refine ⟨?_, ?_, rfl, ?_, ?_⟩
  · unfold receive_iteration_class clientSelInf
    simp only [Option.elim'_some]
    cases hp : parsePyFloats (parts.take 13) with
    | none => rfl
    | some floats =>
        simp only [Option.elim'_some]
        by_cases hlen : floats.length < 13
        · simp [hlen, RecvClass.isCrash]
        · simp only [if_neg hlen]
          cases hsel : floats.get? 12 with
          | none => rfl
          | some sel =>
              simp only [Option.elim'_some]
              cases sel <;> rfl
  · unfold receive_step_class parse_command_err serverSelInf
    cases d with
    | none => rfl
    | some parts2 =>
        simp only [Option.elim'_some]
        cases hp : parsePyFloats parts2 with
        | none => rfl
        | some values =>
            simp only [Option.elim'_some]
            exact parse_values_crash values
  · rfl
  · have hz : zeroNormQuatF (.finite 0) (.finite 0) (.finite 0) (.finite 1) = false := by
      simp only [zeroNormQuatF]
      norm_num
    simp [receive_step_class, parse_command_err, parse_values_err, parsePyFloats,
      nineFields, hz, intErr, PyErr.isValueErrorClass]

end Poisson
